import Mathlib

/-!
Verification of the bonzobuddy bulk webhook delivery and validation pipeline.

This file shallowly embeds the core operations of the repository:
the webhook delivery engine (scripts/webhook_validator.py), the test data
factory distribution logic (scripts/test_data_factory.py), the remote
validation client (scripts/bonzo_api_client.py), and the payload template
resolution (app/models/schemas.py, sendhook_app/payload_generator.py).

Network effects are abstracted as oracle functions: each network attempt is
an explicit outcome value (HTTP status plus body, timeout, or another
exception), and the embedded functions consume these outcomes exactly the
way the Python control flow does.  Response times are modelled as rationals;
wall-clock timestamps (the WebhookResponse.timestamp field, which is set
from datetime.now) are omitted since no verified property mentions them.
-/

/-- A JSON value, the type of payloads and parsed response bodies. -/
inductive JsonValue where
  | null
  | str (s : String)
  | num (q : ℚ)
  | bool (b : Bool)
  | arr (items : List JsonValue)
  | obj (fields : List (String × JsonValue))

/-- Webhook response data (webhook_validator.WebhookResponse).
The wall-clock timestamp field is omitted (set from datetime.now in the
source, unused by every property verified here). -/
structure WebhookResponse where
  record_id : String
  status_code : Nat
  response_text : String
  response_time : ℚ
  error : Option String := none
  deriving DecidableEq

/-- Individual test record data (test_data_factory.TestRecord). -/
structure TestRecord where
  record_id : String
  user_email : String
  user_id : Int
  team_id : Int
  payload : JsonValue
  sequence_number : Nat

/-- Outcome of one network POST attempt, as observed by the delivery code:
an HTTP response with a status, body text and elapsed time, a timeout, or
any other exception with its message. -/
inductive AttemptOutcome where
  | http (status : Nat) (text : String) (rtime : ℚ)
  | timeout (rtime : ℚ)
  | exc (msg : String) (rtime : ℚ)
  deriving DecidableEq

/-- WebhookValidator.send_webhook_async: build the WebhookResponse for one
asynchronous delivery attempt.  On an HTTP response the body is truncated to
1000 characters; on a timeout or any other exception the status code is 0
and the error message is descriptive. -/
def send_webhook_async (record_id : String) (cfg_timeout : Nat) :
    AttemptOutcome → WebhookResponse
  | .http status text rtime =>
      { record_id := record_id
        status_code := status
        response_text := text.take 1000
        response_time := rtime }
  | .timeout rtime =>
      { record_id := record_id
        status_code := 0
        response_text := ""
        response_time := rtime
        error := some ("Timeout after " ++ toString cfg_timeout ++ "s") }
  | .exc msg rtime =>
      { record_id := record_id
        status_code := 0
        response_text := ""
        response_time := rtime
        error := some ("Request failed: " ++ msg) }

/-- Result of one gathered asyncio task in send_bulk_webhooks_async:
either the task completed and its network outcome was handled by
send_webhook_async, or the task raised an unanticipated exception
(asyncio.gather with return_exceptions=True hands the exception back). -/
inductive TaskResult where
  | completed (outcome : AttemptOutcome)
  | raised (msg : String)
  deriving DecidableEq

/-- The per-task loop body of WebhookValidator.send_bulk_webhooks_async:
task i delivers record i; an exception result is converted into a
WebhookResponse with status_code 0, empty text, response_time 0 and the
exception text as error. -/
def bulkGo (cfg_timeout : Nat) (net : Nat → TaskResult) :
    Nat → List TestRecord → List WebhookResponse
  | _, [] => []
  | i, rec :: rest =>
      (match net i with
       | .completed outcome => send_webhook_async rec.record_id cfg_timeout outcome
       | .raised msg =>
          { record_id := rec.record_id
            status_code := 0
            response_text := ""
            response_time := 0
            error := some msg }) :: bulkGo cfg_timeout net (i + 1) rest

/-- WebhookValidator.send_bulk_webhooks_async: send every record, one task
per record, and convert every raised exception into a well-formed
WebhookResponse, preserving the submission order of the result list. -/
def send_bulk_webhooks_async (cfg_timeout : Nat) (test_records : List TestRecord)
    (net : Nat → TaskResult) : List WebhookResponse :=
  bulkGo cfg_timeout net 0 test_records

/-- Python max over a non-empty list, with 0 for the empty list (the source
writes the empty case as an explicit conditional). -/
def pyListMax : List ℚ → ℚ
  | [] => 0
  | x :: xs => xs.foldl max x

/-- Python min over a non-empty list, with 0 for the empty list. -/
def pyListMin : List ℚ → ℚ
  | [] => 0
  | x :: xs => xs.foldl min x

/-- Statistics for webhook delivery testing
(webhook_validator.WebhookDeliveryStats). -/
structure WebhookDeliveryStats where
  total_sent : Nat
  successful : Nat
  failed : Nat
  avg_response_time : ℚ
  max_response_time : ℚ
  min_response_time : ℚ
  success_rate : ℚ
  responses : List WebhookResponse
  deriving DecidableEq

/-- WebhookDeliveryStats.from_responses: aggregate a response list.
Timing statistics range over the responses whose response_time is strictly
positive; every average, max and min is 0 when that sublist is empty, and
the success rate is 0 when the list itself is empty. -/
def WebhookDeliveryStats.from_responses (responses : List WebhookResponse) :
    WebhookDeliveryStats :=
  let total_sent := responses.length
  let successful :=
    responses.countP (fun r => decide (200 ≤ r.status_code ∧ r.status_code < 300))
  let failed := total_sent - successful
  let response_times :=
    (responses.filter (fun r => decide (0 < r.response_time))).map
      (fun r => r.response_time)
  let avg_response_time :=
    if response_times = [] then 0
    else response_times.sum / (response_times.length : ℚ)
  let max_response_time :=
    if response_times = [] then 0 else pyListMax response_times
  let min_response_time :=
    if response_times = [] then 0 else pyListMin response_times
  let success_rate :=
    if 0 < total_sent then (successful : ℚ) / (total_sent : ℚ) * 100 else 0
  { total_sent := total_sent
    successful := successful
    failed := failed
    avg_response_time := avg_response_time
    max_response_time := max_response_time
    min_response_time := min_response_time
    success_rate := success_rate
    responses := responses }

/-- The failures sub-list of WebhookValidator.generate_delivery_report:
the responses whose status code is outside the 2xx range. -/
def generate_delivery_report_failures (responses : List WebhookResponse) :
    List WebhookResponse :=
  responses.filter (fun r => decide (r.status_code < 200 ∨ 300 ≤ r.status_code))

/-- Whether an attempt outcome short-circuits the retry loop: only an HTTP
response with a 2xx status returns immediately; a timeout or another
exception never does. -/
def outcomeSuccess : AttemptOutcome → Bool
  | .http status _ _ => decide (200 ≤ status ∧ status < 300)
  | .timeout _ => false
  | .exc _ _ => false

/-- The synchronous single-attempt response construction inside
WebhookValidator.send_webhook_with_retry (same shape as the asynchronous
one: 1000-character truncation, status 0 plus descriptive error on
timeout or other exception). -/
def retryAttemptResponse (record_id : String) (cfg_timeout : Nat) :
    AttemptOutcome → WebhookResponse
  | .http status text rtime =>
      { record_id := record_id
        status_code := status
        response_text := text.take 1000
        response_time := rtime }
  | .timeout rtime =>
      { record_id := record_id
        status_code := 0
        response_text := ""
        response_time := rtime
        error := some ("Timeout after " ++ toString cfg_timeout ++ "s") }
  | .exc msg rtime =>
      { record_id := record_id
        status_code := 0
        response_text := ""
        response_time := rtime
        error := some ("Request failed: " ++ msg) }

/-- The for-loop of WebhookValidator.send_webhook_with_retry.  Arguments:
the index of the next attempt, the remaining number of permitted attempts,
and the last stored response (None before any attempt).  Returns the
response the Python function returns together with the number of attempts
actually made. -/
def retryLoop (record_id : String) (cfg_timeout : Nat)
    (attempts : Nat → AttemptOutcome) :
    Nat → Nat → Option WebhookResponse → Option WebhookResponse × Nat
  | _, 0, last => (last, 0)
  | i, fuel + 1, _ =>
      let outcome := attempts i
      let resp := retryAttemptResponse record_id cfg_timeout outcome
      if outcomeSuccess outcome then (some resp, 1)
      else
        let rest := retryLoop record_id cfg_timeout attempts (i + 1) fuel (some resp)
        (rest.1, rest.2 + 1)

/-- WebhookValidator.send_webhook_with_retry: attempt delivery up to
retry_attempts times (a Python range, so a non-positive count yields zero
attempts), short-circuiting on the first 2xx response, and otherwise
returning the last stored response — None when no attempt was made.
The second component counts the attempts made. -/
def send_webhook_with_retry (record_id : String) (cfg_timeout : Nat)
    (retry_attempts : Int) (attempts : Nat → AttemptOutcome) :
    Option WebhookResponse × Nat :=
  retryLoop record_id cfg_timeout attempts 0 retry_attempts.toNat none

/-- The even branch of TestDataFactory._calculate_user_distribution, and the
body of TestDataFactory._calculate_user_distribution_even: user index i
(in user-list order) receives base_count records plus one extra when i is
below the remainder.  The Python dict keyed by user index 0..N-1 in
insertion order is represented as the list of counts in index order. -/
def calculate_user_distribution_even (total_records : Nat) (num_users : Nat) :
    List Nat :=
  let base_count := total_records / num_users
  let remainder := total_records % num_users
  (List.range num_users).map (fun i => base_count + if i < remainder then 1 else 0)

/-- TestDataFactory._calculate_user_distribution: dispatch on the
distribution method name.  The even branch computes the split inline; the
weighted and custom branches fall back to the even helper; an unknown
method name raises ValueError, modelled as none. -/
def calculate_user_distribution (distribution : String) (total_records : Nat)
    (num_users : Nat) : Option (List Nat) :=
  if distribution = "even" then
    some
      (let base_count := total_records / num_users
       let remainder := total_records % num_users
       (List.range num_users).map (fun i => base_count + if i < remainder then 1 else 0))
  else if distribution = "weighted" then
    some (calculate_user_distribution_even total_records num_users)
  else if distribution = "custom" then
    some (calculate_user_distribution_even total_records num_users)
  else
    none

/-- Prospect data from the Bonzo API (bonzo_api_client.ProspectData).
The free-form dictionary fields are modelled as JSON objects. -/
structure ProspectData where
  id : Int
  business_entity_id : Int
  first_name : String
  last_name : String
  full_name : String
  source : String
  email : Option String
  phone : Option String
  assigned_to : Int
  assigned_user : List (String × JsonValue)
  created_at : String
  updated_at : String
  business : List (String × JsonValue)

/-- The parsed body of a Bonzo API response, restricted to the two keys the
error path of BonzoAPIClient._make_request inspects.  All other content is
irrelevant to the verified behaviour. -/
structure ParsedData where
  message : Option String
  error : Option String
  deriving DecidableEq

/-- Bonzo API related errors (bonzo_api_client.BonzoAPIError): a single
exception kind carrying its message string. -/
structure BonzoAPIError where
  msg : String
  deriving DecidableEq

/-- Outcome of the underlying HTTPS exchange in
BonzoAPIClient._make_request: either a response with a status and parsed
body, or an exception raised by the transport layer. -/
inductive HTTPOutcome where
  | response (status : Nat) (parsed : ParsedData)
  | transportError (msg : String)
  deriving DecidableEq

/-- The error message built by BonzoAPIClient._make_request for a status of
400 or above: the status code followed by the parsed message field if
present, else the parsed error field if present. -/
def apiErrorMsg (status : Nat) (parsed : ParsedData) : String :=
  "API request failed with status " ++ toString status ++
    (match parsed.message with
     | some m => ": " ++ m
     | none =>
        match parsed.error with
        | some m => ": " ++ m
        | none => "")

/-- BonzoAPIClient._make_request: return the parsed body on a status below
400; raise BonzoAPIError with the composed message on a status of 400 or
above; wrap any transport exception in BonzoAPIError. -/
def make_request (outcome : HTTPOutcome) : Except BonzoAPIError ParsedData :=
  match outcome with
  | .response status parsed =>
      if 400 ≤ status then .error ⟨apiErrorMsg status parsed⟩
      else .ok parsed
  | .transportError msg => .error ⟨"API request failed: " ++ msg⟩

/-- The ways BonzoAPIClient.wait_for_prospects can fail: the deadline
elapsed (TimeoutError carrying the expected count and the count found in
the final iteration), or the loop body never ran so the final raise reads
an unbound local variable (a Python NameError, only reachable when the
iteration budget is zero). -/
inductive WaitError where
  | timedOut (expected : Nat) (found : Nat)
  | unboundLocal
  deriving DecidableEq

/-- The while-loop of BonzoAPIClient.wait_for_prospects: iteration i polls
the remote (the oracle find gives the matching prospects it reports), the
loop returns them as soon as their count reaches the expected count, and a
spent iteration budget raises the timeout error carrying the count from
the final poll. -/
def waitLoop (find : Nat → List ProspectData) (expected_count : Nat) :
    Nat → Nat → Option (List ProspectData) → Except WaitError (List ProspectData)
  | _, 0, last =>
      match last with
      | some prospects => .error (.timedOut expected_count prospects.length)
      | none => .error .unboundLocal
  | i, fuel + 1, _ =>
      let prospects := find i
      if expected_count ≤ prospects.length then .ok prospects
      else waitLoop find expected_count (i + 1) fuel (some prospects)

/-- Ceiling of a non-negative rational as a natural number (0 for negative
rationals). -/
def ratCeilNat (q : ℚ) : Nat := (q.num.toNat + q.den - 1) / q.den

/-- The number of iterations the polling loop of wait_for_prospects runs
when no iteration returns early, under the idealisation that each poll is
instantaneous: iteration k starts at elapsed time k times the interval, so
the loop body runs exactly while that is below the timeout.  Meaningful
for a positive interval (with a non-positive interval and a positive
timeout the Python loop never terminates). -/
def numIters (timeout check_interval : ℚ) : Nat :=
  ratCeilNat (timeout / check_interval)

/-- BonzoAPIClient.wait_for_prospects under the instant-poll time model:
run the polling loop with the iteration budget determined by the timeout
and the check interval. -/
def wait_for_prospects (find : Nat → List ProspectData) (expected_count : Nat)
    (timeout check_interval : ℚ) : Except WaitError (List ProspectData) :=
  waitLoop find expected_count 0 (numIters timeout check_interval) none

/-- Dynamic field types that map to prospect data
(app.models.schemas.DynamicFieldType). -/
inductive DynamicFieldType where
  | firstName
  | lastName
  | email
  | phone
  deriving DecidableEq

/-- The string value of a DynamicFieldType member. -/
def DynamicFieldType.value : DynamicFieldType → String
  | .firstName => "firstName"
  | .lastName => "lastName"
  | .email => "email"
  | .phone => "phone"

/-- A single node in a payload schema (app.models.schemas.SchemaNode): a
declared type string, an optional static value, an optional dynamic field
key, and optional nested object properties. -/
inductive SchemaNode where
  | mk (type : String) (static : Option JsonValue)
      (dynamic : Option DynamicFieldType)
      (properties : Option (List (String × SchemaNode)))

/-- SchemaNode.get_value: a dynamic node looks its key up in the prospect
data with dict.get, so an absent key yields None (null); a static node
returns its stored value (None when unset); an object node resolves each
child, with an empty or missing properties mapping yielding the empty
object.  The node-type dispatch mirrors SchemaNode.node_type: dynamic
takes priority, then properties, then static. -/
def SchemaNode.get_value (prospect_data : List (String × JsonValue)) :
    SchemaNode → JsonValue
  | .mk _ static dynamic properties =>
      match dynamic with
      | some d => (List.lookup d.value prospect_data).getD .null
      | none =>
          match properties with
          | some children =>
              .obj (children.attach.map
                (fun c => (c.1.1, SchemaNode.get_value prospect_data c.1.2)))
          | none => static.getD .null
termination_by node => sizeOf node
decreasing_by
  simp only [Option.some.sizeOf_spec, SchemaNode.mk.sizeOf_spec]
  have hm := List.sizeOf_lt_of_mem c.2
  have : sizeOf c.1.2 < sizeOf c.1 := by
    obtain ⟨a, b⟩ := c.1
    simp only [Prod.mk.sizeOf_spec]
    omega
  omega

/-- PayloadGenerator._get_dynamic_value (sendhook_app/payload_generator.py):
select one of the four prospect values by dynamic type string, with None
for any unrecognized dynamic type. -/
def get_dynamic_value (dynamic_type first_name last_name email phone : String) :
    Option String :=
  if dynamic_type = "firstName" then some first_name
  else if dynamic_type = "lastName" then some last_name
  else if dynamic_type = "email" then some email
  else if dynamic_type = "phone" then some phone
  else none

/-- The response bulkGo produces for the record at offset j of its list. -/
def bulkResponseAt (cfg_timeout : Nat) (net : Nat → TaskResult) (j : Nat)
    (rec : TestRecord) : WebhookResponse :=
  match net j with
  | .completed outcome => send_webhook_async rec.record_id cfg_timeout outcome
  | .raised msg =>
      { record_id := rec.record_id
        status_code := 0
        response_text := ""
        response_time := 0
        error := some msg }

lemma bulkResponseAt_record_id (cfg_timeout : Nat) (net : Nat → TaskResult)
    (j : Nat) (rec : TestRecord) :
    (bulkResponseAt cfg_timeout net j rec).record_id = rec.record_id := by
  unfold bulkResponseAt
  cases net j with
  | completed outcome => cases outcome <;> rfl
  | raised msg => rfl

lemma bulkGo_length (cfg_timeout : Nat) (net : Nat → TaskResult) :
    ∀ (records : List TestRecord) (i : Nat),
      (bulkGo cfg_timeout net i records).length = records.length := by
  intro records
  induction records with
  | nil => intro i; rfl
  | cons rec rest ih => intro i; simp [bulkGo, ih]

lemma bulkGo_getElem? (cfg_timeout : Nat) (net : Nat → TaskResult) :
    ∀ (records : List TestRecord) (i j : Nat),
      (bulkGo cfg_timeout net i records)[j]? =
        (records[j]?).map (bulkResponseAt cfg_timeout net (i + j)) := by
  intro records
  induction records with
  | nil => intro i j; rfl
  | cons rec rest ih =>
      intro i j
      cases j with
      | zero =>
          simp only [bulkGo, List.getElem?_cons_zero, Nat.add_zero]
          rfl
      | succ k =>
          simp only [bulkGo, List.getElem?_cons_succ, ih (i + 1) k]
          have h : i + 1 + k = i + (k + 1) := by omega
          rw [h]

/-- Claim C1: concurrent batch delivery returns exactly one WebhookResponse
per submitted record, in submission order, each associated by record id
with its originating record; a task that raised an unanticipated exception
is converted into a well-formed WebhookResponse with status code 0 and the
exception text as error, so no submitted record is missing a result. -/
theorem bulk_delivery_complete_and_associated (cfg_timeout : Nat)
    (records : List TestRecord) (net : Nat → TaskResult) :
    (send_bulk_webhooks_async cfg_timeout records net).length = records.length ∧
    (∀ j : Nat,
      ((send_bulk_webhooks_async cfg_timeout records net)[j]?).map
          (fun r => r.record_id) =
        (records[j]?).map (fun rec => rec.record_id)) ∧
    (∀ (j : Nat) (rec : TestRecord) (msg : String),
      records[j]? = some rec → net j = .raised msg →
      (send_bulk_webhooks_async cfg_timeout records net)[j]? =
        some { record_id := rec.record_id, status_code := 0, response_text := ""
               response_time := 0, error := some msg }) := by
  refine ⟨bulkGo_length cfg_timeout net records 0, ?_, ?_⟩
  · intro j
    rw [send_bulk_webhooks_async, bulkGo_getElem?, Nat.zero_add]
    cases hr : records[j]? with
    | none => rfl
    | some rec => simp [bulkResponseAt_record_id]
  · intro j rec msg hr hn
    rw [send_bulk_webhooks_async, bulkGo_getElem?, Nat.zero_add, hr]
    simp [bulkResponseAt, hn]

/-- A sample test record for concrete evaluations. -/
def sampleRecord (rid : String) (n : Nat) : TestRecord :=
  { record_id := rid
    user_email := "user@example.com"
    user_id := 101
    team_id := 7
    payload := JsonValue.null
    sequence_number := n }

/-- A network oracle whose second task raises an unanticipated exception. -/
def sampleNet : Nat → TaskResult := fun j =>
  if j = 1 then .raised "boom" else .completed (.http 200 "ok" 1)

/-- Witness for claim C1: on a concrete two-record batch whose second task
raises, the second result is the converted status-0 response. -/
theorem bulk_delivery_complete_and_associated_witness :
    (send_bulk_webhooks_async 30 [sampleRecord "run_001" 1, sampleRecord "run_002" 2]
        sampleNet)[1]? =
      some { record_id := "run_002", status_code := 0, response_text := ""
             response_time := 0, error := some "boom" } :=
  (bulk_delivery_complete_and_associated 30
      [sampleRecord "run_001" 1, sampleRecord "run_002" 2] sampleNet).2.2 1
    (sampleRecord "run_002" 2) "boom" rfl rfl

lemma retryLoop_count_le (record_id : String) (cfg_timeout : Nat)
    (attempts : Nat → AttemptOutcome) :
    ∀ (fuel i : Nat) (last : Option WebhookResponse),
      (retryLoop record_id cfg_timeout attempts i fuel last).2 ≤ fuel := by
  intro fuel
  induction fuel with
  | zero => intro i last; simp [retryLoop]
  | succ f ih =>
      intro i last
      simp only [retryLoop]
      split
      · simp
      · have := ih (i + 1) (some (retryAttemptResponse record_id cfg_timeout (attempts i)))
        omega

lemma retryLoop_all_fail (record_id : String) (cfg_timeout : Nat)
    (attempts : Nat → AttemptOutcome) :
    ∀ (fuel i : Nat) (last : Option WebhookResponse),
      (∀ k, k < fuel → outcomeSuccess (attempts (i + k)) = false) → 1 ≤ fuel →
      retryLoop record_id cfg_timeout attempts i fuel last =
        (some (retryAttemptResponse record_id cfg_timeout (attempts (i + fuel - 1))),
          fuel) := by
  intro fuel
  induction fuel with
  | zero => intro i last _ hpos; omega
  | succ f ih =>
      intro i last hfail _
      simp only [retryLoop]
      have h0 : outcomeSuccess (attempts i) = false := by
        have := hfail 0 (by omega)
        simpa using this
      rw [h0]
      simp only [Bool.false_eq_true, if_false]
      cases f with
      | zero => simp [retryLoop]
      | succ g =>
          have hrec := ih (i + 1)
            (some (retryAttemptResponse record_id cfg_timeout (attempts i)))
            (fun k hk => by
              have := hfail (k + 1) (by omega)
              rwa [show i + (k + 1) = i + 1 + k by omega] at this)
            (by omega)
          rw [hrec]
          have hidx : i + 1 + (g + 1) - 1 = i + (g + 1 + 1) - 1 := by omega
          rw [hidx]

lemma retryLoop_first_success (record_id : String) (cfg_timeout : Nat)
    (attempts : Nat → AttemptOutcome) :
    ∀ (j fuel i : Nat) (last : Option WebhookResponse),
      j < fuel → outcomeSuccess (attempts (i + j)) = true →
      (∀ k, k < j → outcomeSuccess (attempts (i + k)) = false) →
      retryLoop record_id cfg_timeout attempts i fuel last =
        (some (retryAttemptResponse record_id cfg_timeout (attempts (i + j))),
          j + 1) := by
  intro j
  induction j with
  | zero =>
      intro fuel i last hlt hsucc _
      cases fuel with
      | zero => omega
      | succ f =>
          simp only [retryLoop]
          rw [show i + 0 = i from rfl] at hsucc
          rw [hsucc]
          simp
  | succ j ih =>
      intro fuel i last hlt hsucc hfail
      cases fuel with
      | zero => omega
      | succ f =>
          simp only [retryLoop]
          have h0 : outcomeSuccess (attempts i) = false := by
            have := hfail 0 (by omega)
            simpa using this
          rw [h0]
          simp only [Bool.false_eq_true, if_false]
          have hrec := ih f (i + 1)
            (some (retryAttemptResponse record_id cfg_timeout (attempts i)))
            (by omega)
            (by rwa [show i + 1 + j = i + (j + 1) by omega])
            (fun k hk => by
              have := hfail (k + 1) (by omega)
              rwa [show i + (k + 1) = i + 1 + k by omega] at this)
          rw [hrec]
          rw [show i + 1 + j = i + (j + 1) by omega]

/-- Claim C2: retry-mode delivery makes at most retry_attempts attempts,
returns the response of the first attempt whose status is 2xx together
with that attempt count, returns the last attempt response when every
attempt fails, and on an endpoint answering 503 for every attempt with
retry_attempts 3 it makes exactly 3 attempts and returns status 503. -/
theorem retry_mode_first_success_or_last (record_id : String) (cfg_timeout : Nat)
    (retry_attempts : Int) (attempts : Nat → AttemptOutcome) :
    ((send_webhook_with_retry record_id cfg_timeout retry_attempts attempts).2 ≤
        retry_attempts.toNat) ∧
    (∀ j : Nat, j < retry_attempts.toNat → outcomeSuccess (attempts j) = true →
      (∀ k, k < j → outcomeSuccess (attempts k) = false) →
      send_webhook_with_retry record_id cfg_timeout retry_attempts attempts =
        (some (retryAttemptResponse record_id cfg_timeout (attempts j)), j + 1)) ∧
    ((∀ k, k < retry_attempts.toNat → outcomeSuccess (attempts k) = false) →
      1 ≤ retry_attempts.toNat →
      send_webhook_with_retry record_id cfg_timeout retry_attempts attempts =
        (some (retryAttemptResponse record_id cfg_timeout
            (attempts (retry_attempts.toNat - 1))), retry_attempts.toNat)) ∧
    send_webhook_with_retry "rec_001" 30 3
        (fun _ => AttemptOutcome.http 503 "Service Unavailable" 1) =
      (some { record_id := "rec_001", status_code := 503
              response_text := "Service Unavailable", response_time := 1
              error := none }, 3) := by
  refine ⟨retryLoop_count_le record_id cfg_timeout attempts retry_attempts.toNat 0 none,
    ?_, ?_, ?_⟩
  · intro j hj hsucc hfail
    unfold send_webhook_with_retry
    rw [retryLoop_first_success record_id cfg_timeout attempts j retry_attempts.toNat
      0 none hj (by simpa using hsucc) (fun k hk => by simpa using hfail k hk)]
    rw [Nat.zero_add]
  · intro hfail hpos
    unfold send_webhook_with_retry
    rw [retryLoop_all_fail record_id cfg_timeout attempts retry_attempts.toNat 0 none
      (fun k hk => by simpa using hfail k hk) hpos]
    rw [Nat.zero_add]
  · have h := retryLoop_all_fail "rec_001" 30
      (fun _ => AttemptOutcome.http 503 "Service Unavailable" 1) 3 0 none
      (fun k _ => by simp [outcomeSuccess]) (by omega)
    unfold send_webhook_with_retry
    rw [show ((3 : Int).toNat) = 3 from rfl, h]
    simp only [retryAttemptResponse, String.take_eq]
    decide

/-- Witness for claim C2: three attempts against an always-503 endpoint
yield exactly 3 attempts, the hypotheses of the exhaustion conjunct being
discharged concretely. -/
theorem retry_mode_first_success_or_last_witness :
    send_webhook_with_retry "rec_009" 30 3
        (fun _ => AttemptOutcome.http 503 "busy" 1) =
      (some (retryAttemptResponse "rec_009" 30 (AttemptOutcome.http 503 "busy" 1)),
        3) :=
  (retry_mode_first_success_or_last "rec_009" 30 3
      (fun _ => AttemptOutcome.http 503 "busy" 1)).2.2.1
    (fun k _ => by simp [outcomeSuccess]) (by omega)

/-- Claim C9: a non-positive retry_attempts configuration makes the retry
loop perform no attempts and return None instead of a WebhookResponse. -/
theorem retry_nonpositive_attempts_returns_none (record_id : String)
    (cfg_timeout : Nat) (retry_attempts : Int)
    (attempts : Nat → AttemptOutcome) (h : retry_attempts ≤ 0) :
    send_webhook_with_retry record_id cfg_timeout retry_attempts attempts =
      (none, 0) := by
  unfold send_webhook_with_retry
  rw [Int.toNat_of_nonpos h]
  rfl

/-- Witness for claim C9: with retry_attempts set to 0 the caller receives
no response object at all. -/
theorem retry_nonpositive_attempts_returns_none_witness :
    send_webhook_with_retry "rec_001" 30 0 (fun _ => AttemptOutcome.timeout 1) =
      (none, 0) :=
  retry_nonpositive_attempts_returns_none "rec_001" 30 0
    (fun _ => AttemptOutcome.timeout 1) (by omega)

lemma calculate_user_distribution_even_length (total_records num_users : Nat) :
    (calculate_user_distribution_even total_records num_users).length = num_users := by
  simp [calculate_user_distribution_even]

lemma calculate_user_distribution_even_getD (total_records num_users i : Nat)
    (hi : i < num_users) :
    (calculate_user_distribution_even total_records num_users).getD i 0 =
      total_records / num_users +
        if i < total_records % num_users then 1 else 0 := by
  simp [calculate_user_distribution_even, List.getD_eq_getElem?_getD,
    List.getElem?_map, List.getElem?_range hi]

lemma sum_range_map_base_indicator (a r : Nat) :
    ∀ n : Nat,
      ((List.range n).map (fun i => a + if i < r then 1 else 0)).sum =
        n * a + min r n := by
  intro n
  induction n with
  | zero => simp
  | succ m ih =>
      rw [List.range_succ, List.map_append, List.sum_append, ih]
      simp only [List.map_cons, List.map_nil, List.sum_cons, List.sum_nil,
        Nat.succ_mul]
      by_cases h : m < r
      · rw [min_eq_right (Nat.le_of_lt h), min_eq_right (Nat.succ_le_of_lt h)]
        simp only [h, if_true]
        omega
      · have hr : r ≤ m := Nat.le_of_not_lt h
        rw [min_eq_left hr, min_eq_left (Nat.le_succ_of_le hr)]
        simp only [h, if_false]
        omega

/-- Claim C3: the even distribution assigns each user the floor of
total over N records plus one extra for each of the first total-mod-N
users in user-list order, the per-user counts differ pairwise by at most
one, they sum exactly to the total, and 10 records over 3 users yield
the counts 4, 3, 3 in user-list order. -/
theorem even_distribution_floor_remainder (total_records num_users : Nat)
    (hN : 0 < num_users) :
    calculate_user_distribution "even" total_records num_users =
      some (calculate_user_distribution_even total_records num_users) ∧
    (calculate_user_distribution_even total_records num_users).length = num_users ∧
    (∀ i, i < num_users →
      (calculate_user_distribution_even total_records num_users).getD i 0 =
        total_records / num_users +
          if i < total_records % num_users then 1 else 0) ∧
    (∀ i j, i < num_users → j < num_users →
      (calculate_user_distribution_even total_records num_users).getD i 0 ≤
        (calculate_user_distribution_even total_records num_users).getD j 0 + 1) ∧
    (calculate_user_distribution_even total_records num_users).sum = total_records ∧
    calculate_user_distribution "even" 10 3 = some [4, 3, 3] := by
  refine ⟨rfl, calculate_user_distribution_even_length total_records num_users,
    fun i hi => calculate_user_distribution_even_getD total_records num_users i hi,
    ?_, ?_, by decide⟩
  · intro i j hi hj
    rw [calculate_user_distribution_even_getD total_records num_users i hi,
      calculate_user_distribution_even_getD total_records num_users j hj]
    by_cases h1 : i < total_records % num_users <;>
      by_cases h2 : j < total_records % num_users <;> simp [h1, h2] <;> omega
  · rw [calculate_user_distribution_even,
      sum_range_map_base_indicator (total_records / num_users)
        (total_records % num_users) num_users]
    have hmod : total_records % num_users < num_users := Nat.mod_lt _ hN
    rw [min_eq_left (Nat.le_of_lt hmod)]
    exact Nat.div_add_mod total_records num_users

/-- Witness for claim C3: 10 records over 3 users sum to 10 and give the
counts 4, 3, 3. -/
theorem even_distribution_floor_remainder_witness :
    (calculate_user_distribution_even 10 3).sum = 10 ∧
    calculate_user_distribution "even" 10 3 = some [4, 3, 3] :=
  ⟨(even_distribution_floor_remainder 10 3 (by omega)).2.2.2.2.1,
    (even_distribution_floor_remainder 10 3 (by omega)).2.2.2.2.2⟩

/-- Claim C8: the weighted and custom distribution methods fall back to the
even split: for a positive user count they produce exactly the per-user
counts of the even method. -/
theorem weighted_custom_fall_back_to_even (total_records num_users : Nat)
    (hN : 0 < num_users) :
    calculate_user_distribution "weighted" total_records num_users =
      calculate_user_distribution "even" total_records num_users ∧
    calculate_user_distribution "custom" total_records num_users =
      calculate_user_distribution "even" total_records num_users :=
  ⟨rfl, rfl⟩

/-- Witness for claim C8: the fallback coincides with the even split on 10
records over 3 users. -/
theorem weighted_custom_fall_back_to_even_witness :
    calculate_user_distribution "weighted" 10 3 =
      calculate_user_distribution "even" 10 3 ∧
    calculate_user_distribution "custom" 10 3 =
      calculate_user_distribution "even" 10 3 :=
  weighted_custom_fall_back_to_even 10 3 (by omega)

/-- Counterexample to claim C4: resolving a Dynamic email node against an
empty substitution map produces the JSON null value — resolution never
fails, and no MissingSubstitution error exists in the code. -/
theorem dynamic_missing_key_never_fails_counterexample :
    SchemaNode.get_value []
        (SchemaNode.mk "string" none (some DynamicFieldType.email) none) =
      JsonValue.null ∧
    get_dynamic_value "favoriteColor" "Ann" "Lee" "ann@x.test" "555-0100" =
      none := by
  constructor
  · simp [SchemaNode.get_value]
  · rfl

/-- Claim C4 (amended): for every Dynamic node whose key is absent from the
substitution map, resolution silently returns null rather than failing, and
the legacy generator returns None for an unrecognized dynamic type string;
neither code path raises a MissingSubstitution error. -/
theorem dynamic_missing_key_yields_null (ty : String)
    (static : Option JsonValue) (props : Option (List (String × SchemaNode)))
    (d : DynamicFieldType) (prospect_data : List (String × JsonValue))
    (h : List.lookup d.value prospect_data = none) :
    SchemaNode.get_value prospect_data
        (SchemaNode.mk ty static (some d) props) = JsonValue.null ∧
    ∀ dynamic_type fn ln em ph : String,
      dynamic_type ≠ "firstName" → dynamic_type ≠ "lastName" →
      dynamic_type ≠ "email" → dynamic_type ≠ "phone" →
      get_dynamic_value dynamic_type fn ln em ph = none := by
  constructor
  · simp [SchemaNode.get_value, h]
  · intro dt fn ln em ph h1 h2 h3 h4
    simp [get_dynamic_value, h1, h2, h3, h4]

/-- Witness for amended claim C4: an email node resolved against a map
holding only a firstName entry yields null. -/
theorem dynamic_missing_key_yields_null_witness :
    SchemaNode.get_value [("firstName", JsonValue.str "Ann")]
        (SchemaNode.mk "string" none (some DynamicFieldType.email) none) =
      JsonValue.null :=
  (dynamic_missing_key_yields_null "string" none none DynamicFieldType.email
    [("firstName", JsonValue.str "Ann")] rfl).1

/-- Counterexample to claim C5: a 301 redirect response — a non-2xx
status — makes _make_request return normally with the parsed body instead
of raising BonzoAPIError. -/
theorem make_request_3xx_returns_normally_counterexample :
    make_request (HTTPOutcome.response 301 { message := none, error := none }) =
      Except.ok { message := none, error := none } := rfl

/-- Claim C5 (amended): _make_request raises the single error kind
BonzoAPIError exactly on an HTTP status of 400 or above or on a transport
failure, with the raised message carrying the status code and any parsed
message or error field of the body; statuses below 400 (1xx, 2xx and 3xx)
return the parsed body normally. -/
theorem make_request_errors_iff_status_ge_400 (status : Nat)
    (parsed : ParsedData) (msg : String) :
    (400 ≤ status →
      make_request (HTTPOutcome.response status parsed) =
        Except.error ⟨apiErrorMsg status parsed⟩) ∧
    (status < 400 →
      make_request (HTTPOutcome.response status parsed) = Except.ok parsed) ∧
    make_request (HTTPOutcome.transportError msg) =
      Except.error ⟨"API request failed: " ++ msg⟩ := by
  refine ⟨?_, ?_, rfl⟩
  · intro h
    simp only [make_request]
    rw [if_pos h]
  · intro h
    simp only [make_request]
    rw [if_neg (by omega)]

/-- Witness for amended claim C5: a 500 response with a parsed message
raises BonzoAPIError with the composed message, and a 204 response returns
normally. -/
theorem make_request_errors_iff_status_ge_400_witness :
    make_request
        (HTTPOutcome.response 500 { message := some "Server Error", error := none }) =
      Except.error
        ⟨apiErrorMsg 500 { message := some "Server Error", error := none }⟩ :=
  (make_request_errors_iff_status_ge_400 500
    { message := some "Server Error", error := none } "x").1 (by omega)

/-- A plain successful response for concrete stats evaluations. -/
def okResponse (rid : String) (rtime : ℚ) : WebhookResponse :=
  { record_id := rid, status_code := 200, response_text := "ok"
    response_time := rtime, error := none }

/-- A concrete batch of five responses of which exactly the second and
fourth failed with status 500. -/
def fiveResponses : List WebhookResponse :=
  [ { record_id := "rec_001", status_code := 200, response_text := "ok"
      response_time := 1, error := none }
  , { record_id := "rec_002", status_code := 500, response_text := "err"
      response_time := 2, error := none }
  , { record_id := "rec_003", status_code := 201, response_text := "ok"
      response_time := 1, error := none }
  , { record_id := "rec_004", status_code := 500, response_text := "err"
      response_time := 3, error := none }
  , { record_id := "rec_005", status_code := 204, response_text := ""
      response_time := 1, error := none } ]

/-- Claim C7: the delivery statistics are a pure function of the response
list — total equals the list length, successes count the 2xx responses,
failures are the rest, the success rate is successes over total times 100
(0 for an empty list), recomputation yields identical numbers — and the
delivery report failures list is exactly the non-2xx responses; on five
responses of which two have status 500 the stats are 5, 3, 2 and the
failures list holds exactly the two failing record ids. -/
theorem delivery_stats_pure_function (responses : List WebhookResponse) :
    (WebhookDeliveryStats.from_responses responses).total_sent =
      responses.length ∧
    (WebhookDeliveryStats.from_responses responses).successful =
      responses.countP
        (fun r => decide (200 ≤ r.status_code ∧ r.status_code < 300)) ∧
    (WebhookDeliveryStats.from_responses responses).failed =
      (WebhookDeliveryStats.from_responses responses).total_sent -
        (WebhookDeliveryStats.from_responses responses).successful ∧
    (WebhookDeliveryStats.from_responses responses).success_rate =
      (if 0 < responses.length then
        ((WebhookDeliveryStats.from_responses responses).successful : ℚ) /
          (responses.length : ℚ) * 100
      else 0) ∧
    WebhookDeliveryStats.from_responses responses =
      WebhookDeliveryStats.from_responses responses ∧
    generate_delivery_report_failures responses =
      responses.filter
        (fun r => decide (r.status_code < 200 ∨ 300 ≤ r.status_code)) ∧
    (WebhookDeliveryStats.from_responses fiveResponses).total_sent = 5 ∧
    (WebhookDeliveryStats.from_responses fiveResponses).successful = 3 ∧
    (WebhookDeliveryStats.from_responses fiveResponses).failed = 2 ∧
    (generate_delivery_report_failures fiveResponses).map
        (fun r => r.record_id) = ["rec_002", "rec_004"] := by
  refine ⟨rfl, rfl, rfl, rfl, rfl, rfl, ?_, ?_, ?_, ?_⟩ <;> decide

lemma timing_source_list (responses : List WebhookResponse) :
    ((WebhookDeliveryStats.from_responses responses).avg_response_time =
        (let ts := (responses.filter
            (fun r => decide (0 < r.response_time))).map
              (fun r => r.response_time)
          if ts = [] then 0 else ts.sum / (ts.length : ℚ))) ∧
    ((WebhookDeliveryStats.from_responses responses).max_response_time =
        (let ts := (responses.filter
            (fun r => decide (0 < r.response_time))).map
              (fun r => r.response_time)
          if ts = [] then 0 else pyListMax ts)) ∧
    ((WebhookDeliveryStats.from_responses responses).min_response_time =
        (let ts := (responses.filter
            (fun r => decide (0 < r.response_time))).map
              (fun r => r.response_time)
          if ts = [] then 0 else pyListMin ts)) :=
  ⟨rfl, rfl, rfl⟩

/-- Claim C10: the three timing statistics range only over the responses
whose response_time is strictly positive — appending a response recorded
with response_time 0 (such as an exception-converted batch result) leaves
all three unchanged, filtering out the non-positive response times leaves
all three unchanged, and all three are 0 when no response has a positive
response_time. -/
theorem timing_stats_exclude_nonpositive (responses : List WebhookResponse)
    (r : WebhookResponse) :
    (r.response_time = 0 →
      (WebhookDeliveryStats.from_responses (responses ++ [r])).avg_response_time =
        (WebhookDeliveryStats.from_responses responses).avg_response_time ∧
      (WebhookDeliveryStats.from_responses (responses ++ [r])).max_response_time =
        (WebhookDeliveryStats.from_responses responses).max_response_time ∧
      (WebhookDeliveryStats.from_responses (responses ++ [r])).min_response_time =
        (WebhookDeliveryStats.from_responses responses).min_response_time) ∧
    ((WebhookDeliveryStats.from_responses
        (responses.filter (fun x => decide (0 < x.response_time)))).avg_response_time =
      (WebhookDeliveryStats.from_responses responses).avg_response_time ∧
     (WebhookDeliveryStats.from_responses
        (responses.filter (fun x => decide (0 < x.response_time)))).max_response_time =
      (WebhookDeliveryStats.from_responses responses).max_response_time ∧
     (WebhookDeliveryStats.from_responses
        (responses.filter (fun x => decide (0 < x.response_time)))).min_response_time =
      (WebhookDeliveryStats.from_responses responses).min_response_time) ∧
    ((∀ x ∈ responses, x.response_time ≤ 0) →
      (WebhookDeliveryStats.from_responses responses).avg_response_time = 0 ∧
      (WebhookDeliveryStats.from_responses responses).max_response_time = 0 ∧
      (WebhookDeliveryStats.from_responses responses).min_response_time = 0) := by
  refine ⟨?_, ?_, ?_⟩
  · intro h0
    have hf : (responses ++ [r]).filter (fun x => decide (0 < x.response_time)) =
        responses.filter (fun x => decide (0 < x.response_time)) := by
      simp [List.filter_append, h0]
    simp only [WebhookDeliveryStats.from_responses, hf]
    simp
  · have hf : (responses.filter (fun x => decide (0 < x.response_time))).filter
        (fun x => decide (0 < x.response_time)) =
        responses.filter (fun x => decide (0 < x.response_time)) := by
      rw [List.filter_filter]
      simp
    simp only [WebhookDeliveryStats.from_responses, hf]
    simp
  · intro hall
    have hf : responses.filter (fun x => decide (0 < x.response_time)) = [] := by
      rw [List.filter_eq_nil_iff]
      intro a ha
      simpa using not_lt.mpr (hall a ha)
    simp only [WebhookDeliveryStats.from_responses, hf]
    simp

/-- Witness for claim C10: appending an exception-converted response with
response_time 0 to a one-element list leaves the average unchanged, and a
list whose only response has response_time 0 has all-zero timing stats. -/
theorem timing_stats_exclude_nonpositive_witness :
    (WebhookDeliveryStats.from_responses
        ([okResponse "rec_001" 2] ++
          [{ record_id := "rec_002", status_code := 0, response_text := ""
             response_time := 0, error := some "boom" }])).avg_response_time =
      (WebhookDeliveryStats.from_responses
        [okResponse "rec_001" 2]).avg_response_time ∧
    (WebhookDeliveryStats.from_responses
        [{ record_id := "rec_002", status_code := 0, response_text := ""
           response_time := 0, error := some "boom" }]).max_response_time = 0 :=
  by
  constructor
  · exact ((timing_stats_exclude_nonpositive [okResponse "rec_001" 2]
      { record_id := "rec_002", status_code := 0, response_text := ""
        response_time := 0, error := some "boom" }).1 rfl).1
  · refine ((timing_stats_exclude_nonpositive
        [{ record_id := "rec_002", status_code := 0, response_text := ""
           response_time := 0, error := some "boom" }]
        (okResponse "rec_000" 1)).2.2 ?_).2.1
    intro x hx
    rw [List.mem_singleton] at hx
    subst hx
    norm_num

lemma waitLoop_all_below (find : Nat → List ProspectData) (expected_count : Nat) :
    ∀ (fuel i : Nat) (last : Option (List ProspectData)),
      (∀ k, k < fuel → (find (i + k)).length < expected_count) → 1 ≤ fuel →
      waitLoop find expected_count i fuel last =
        Except.error (WaitError.timedOut expected_count
          (find (i + fuel - 1)).length) := by
  intro fuel
  induction fuel with
  | zero => intro i last _ hpos; omega
  | succ f ih =>
      intro i last hbelow _
      simp only [waitLoop]
      have h0 : (find i).length < expected_count := by
        have := hbelow 0 (by omega)
        simpa using this
      rw [if_neg (by omega)]
      cases f with
      | zero => simp [waitLoop]
      | succ g =>
          have hrec := ih (i + 1) (some (find i))
            (fun k hk => by
              have := hbelow (k + 1) (by omega)
              rwa [show i + (k + 1) = i + 1 + k by omega] at this)
            (by omega)
          rw [hrec]
          have hidx : i + 1 + (g + 1) - 1 = i + (g + 1 + 1) - 1 := by omega
          rw [hidx]

lemma waitLoop_first_reach (find : Nat → List ProspectData) (expected_count : Nat) :
    ∀ (j fuel i : Nat) (last : Option (List ProspectData)),
      j < fuel → expected_count ≤ (find (i + j)).length →
      (∀ k, k < j → (find (i + k)).length < expected_count) →
      waitLoop find expected_count i fuel last = Except.ok (find (i + j)) := by
  intro j
  induction j with
  | zero =>
      intro fuel i last hlt hreach _
      cases fuel with
      | zero => omega
      | succ f =>
          simp only [waitLoop]
          rw [show i + 0 = i from rfl] at hreach
          rw [if_pos hreach]
          rfl
  | succ j ih =>
      intro fuel i last hlt hreach hbelow
      cases fuel with
      | zero => omega
      | succ f =>
          simp only [waitLoop]
          have h0 : (find i).length < expected_count := by
            have := hbelow 0 (by omega)
            simpa using this
          rw [if_neg (by omega)]
          have hrec := ih f (i + 1) (some (find i))
            (by omega)
            (by rwa [show i + 1 + j = i + (j + 1) by omega])
            (fun k hk => by
              have := hbelow (k + 1) (by omega)
              rwa [show i + (k + 1) = i + 1 + k by omega] at this)
          rw [hrec]
          rw [show i + 1 + j = i + (j + 1) by omega]

/-- A sample downstream prospect for concrete polling evaluations. -/
def sampleProspect : ProspectData :=
  { id := 9001
    business_entity_id := 7
    first_name := "TestRecord_001"
    last_name := "Test"
    full_name := "TestRecord_001 Test"
    source := "Webhook"
    email := some "test.monitorbase.001@bonzobuddy.test"
    phone := some "555-0100"
    assigned_to := 101
    assigned_user := [("id", JsonValue.num 101)]
    created_at := "2025-01-01T00:00:00Z"
    updated_at := "2025-01-01T00:00:00Z"
    business := [] }

lemma numIters_one_fifth : numIters 1 (1 / 5) = 5 := by
  have hq : (1 : ℚ) / (1 / 5) = 5 := by norm_num
  rw [numIters, hq, ratCeilNat]
  simp [Rat.num_ofNat, Rat.den_ofNat]

/-- Claim C6: the polling loop returns the found record list at the first
iteration whose found count reaches the expected count, and when every
iteration within the deadline stays below it, the loop fails with a
timeout error carrying the last observed count; with expected count 5, a
remote that always reports 3 matches, a 1 second timeout and a 0.2 second
interval, it runs 5 iterations and raises the timeout error carrying
found 3. -/
theorem polling_returns_or_times_out (find : Nat → List ProspectData)
    (expected_count : Nat) (timeout check_interval : ℚ) :
    (∀ j : Nat, j < numIters timeout check_interval →
      expected_count ≤ (find j).length →
      (∀ k, k < j → (find k).length < expected_count) →
      wait_for_prospects find expected_count timeout check_interval =
        Except.ok (find j)) ∧
    (1 ≤ numIters timeout check_interval →
      (∀ k, k < numIters timeout check_interval →
        (find k).length < expected_count) →
      wait_for_prospects find expected_count timeout check_interval =
        Except.error (WaitError.timedOut expected_count
          (find (numIters timeout check_interval - 1)).length)) ∧
    numIters 1 (1 / 5) = 5 ∧
    wait_for_prospects (fun _ => List.replicate 3 sampleProspect) 5 1 (1 / 5) =
      Except.error (WaitError.timedOut 5 3) := by
  have h5 : numIters 1 (1 / 5) = 5 := numIters_one_fifth
  refine ⟨?_, ?_, h5, ?_⟩
  · intro j hj hreach hbelow
    unfold wait_for_prospects
    rw [waitLoop_first_reach find expected_count j
      (numIters timeout check_interval) 0 none hj (by simpa using hreach)
      (fun k hk => by simpa using hbelow k hk)]
    rw [Nat.zero_add]
  · intro hpos hbelow
    unfold wait_for_prospects
    rw [waitLoop_all_below find expected_count
      (numIters timeout check_interval) 0 none
      (fun k hk => by simpa using hbelow k hk) hpos]
    rw [Nat.zero_add]
  · unfold wait_for_prospects
    rw [h5]
    rw [waitLoop_all_below (fun _ => List.replicate 3 sampleProspect) 5 5 0 none
      (fun k _ => by simp) (by omega)]
    simp

/-- Witness for claim C6: a remote reporting 2 then 3 matches with expected
count 3 returns the 3 matches at the second iteration, the hypotheses of
the early-return conjunct discharged concretely. -/
theorem polling_returns_or_times_out_witness :
    wait_for_prospects (fun k => List.replicate (k + 2) sampleProspect) 3 1
        (1 / 5) =
      Except.ok (List.replicate 3 sampleProspect) := by
  refine (polling_returns_or_times_out
      (fun k => List.replicate (k + 2) sampleProspect) 3 1 (1 / 5)).1 1
    (by rw [numIters_one_fifth]; omega) (by simp) ?_
  intro k hk
  have hk0 : k = 0 := by omega
  subst hk0
  simp
